import Mathlib

/-!
Shallow embedding of the telemetry core of the observability kit
(`packages/python/src/lite_observability/data_store.py` and `config.py`).

Modelling conventions:
* Python `float` timestamps, durations and metric values are modelled as
  exact rationals (`ℚ`); Python `int` status codes as `ℤ`.
* Python dicts with a fixed key set become structures; open dicts
  (`self.metrics`, custom-metric attributes, trace/error payloads) become
  association lists `List (String × _)` with Python-dict update semantics
  (replace in place if the key exists, else append at the end).
* `collections.deque(maxlen = c)` becomes a `List` together with
  `dequeAppend c`, which keeps the newest `c` elements.
* `dict.get(key, default)` on an optional payload field becomes
  `Option.getD`.
* Event emission (`self.emit`) is modelled by appending the event kind to
  an `events` list carried in the store state; callback invocation itself
  is outside the model.
* File I/O of the persistence layer is abstracted away: `persistData`
  builds the document `_persist_data` would serialize, and
  `loadPersistedData` performs the state merge `_load_persisted_data`
  does after deserialization (Python floats survive a JSON round trip
  exactly, so the values are unchanged).
-/

namespace LiteObs

/-- Association-list lookup, mirroring Python dict access `m[k]` /
`m.get(k)`. Returns the first binding of the key. -/
def lookupA {α : Type} : List (String × α) → String → Option α
  | [], _ => none
  | (k, v) :: rest, key => if k = key then some v else lookupA rest key

/-- Association-list update, mirroring Python dict assignment `m[k] = v`:
replace the binding in place if the key exists, else append it. -/
def setA {α : Type} : List (String × α) → String → α → List (String × α)
  | [], key, v => [(key, v)]
  | (k, w) :: rest, key, v =>
      if k = key then (key, v) :: rest else (k, w) :: setA rest key v

/-- Python `dict.update(other)`: assign every binding of `other` into `m`
in order. -/
def updA {α : Type} (m other : List (String × α)) : List (String × α) :=
  other.foldl (fun acc e => setA acc e.1 e.2) m

/-- Python loop `for k, v in l.items(): m[k] = f k v` (used by
`_load_persisted_data` for custom metrics). -/
def foldSet {α β : Type} (f : String → β → α)
    (base : List (String × α)) (l : List (String × β)) : List (String × α) :=
  l.foldl (fun acc e => setA acc e.1 (f e.1 e.2)) base

/-- Last `n` elements of a list (what a `deque(maxlen := n)` retains). -/
def takeLast {α : Type} (n : ℕ) (l : List α) : List α :=
  l.drop (l.length - n)

/-- Append to a `deque(maxlen := cap)`: the oldest element is evicted when
the deque is full. -/
def dequeAppend {α : Type} (cap : ℕ) (l : List α) (x : α) : List α :=
  takeLast cap (l ++ [x])

/-- Values carried by open (duck-typed) payload maps such as trace and
error payloads and custom-metric attributes. -/
inductive Val : Type
  | num (q : ℚ)
  | str (s : String)
  | boolVal (b : Bool)
deriving DecidableEq

/-- An open attribute map (Python `Dict[str, Any]`). -/
abbrev Obj : Type := List (String × Val)

/-- One time-series data point, Python `{'value': v, 'timestamp': t}`. -/
structure Point where
  value : ℚ
  timestamp : ℚ
deriving DecidableEq

/-- The container behind a metric's `'values'` key. `_initialize_metrics`
creates plain Python lists (unbounded); `_add_time_series` creates a
`deque(maxlen = max_metric_points)` when the key is absent (bounded). -/
inductive SeriesBuf : Type
  | unbounded (pts : List Point)
  | bounded (cap : ℕ) (pts : List Point)
deriving DecidableEq

/-- Appending a point: a list grows without bound, a deque evicts the
oldest entry beyond capacity. -/
def SeriesBuf.push : SeriesBuf → Point → SeriesBuf
  | .unbounded pts, x => .unbounded (pts ++ [x])
  | .bounded cap pts, x => .bounded cap (takeLast cap (pts ++ [x]))

/-- The stored points of either container. -/
def SeriesBuf.points : SeriesBuf → List Point
  | .unbounded pts => pts
  | .bounded _ pts => pts

/-- One entry of `self.metrics`: a dict that may carry a `'value'` key, a
`'values'` key, and a `'timestamp'` key. -/
structure MetricEntry where
  value : Option ℚ := none
  values : Option SeriesBuf := none
  timestamp : ℚ
deriving DecidableEq

/-- The `self.metrics` dict. -/
abbrev Metrics : Type := List (String × MetricEntry)

/-- `_initialize_metrics`: the ten named system metrics. Note that every
`'values'` field is a plain Python list (`SeriesBuf.unbounded`), not a
bounded deque. -/
def initMetrics (now : ℚ) : Metrics :=
  [("http_requests_total", { value := some 0, timestamp := now }),
   ("http_request_duration_seconds",
      { values := some (.unbounded []), timestamp := now }),
   ("http_requests_per_minute",
      { values := some (.unbounded []), timestamp := now }),
   ("http_error_rate", { value := some 0, timestamp := now }),
   ("active_requests", { value := some 0, timestamp := now }),
   ("process_cpu_percent", { values := some (.unbounded []), timestamp := now }),
   ("process_memory_bytes", { values := some (.unbounded []), timestamp := now }),
   ("process_memory_percent", { values := some (.unbounded []), timestamp := now }),
   ("system_load_average", { values := some (.unbounded []), timestamp := now }),
   ("system_memory_usage", { values := some (.unbounded []), timestamp := now })]

/-- Input of `record_request` (`request_data`); every field is optional,
matching `request_data.get(...)` access with defaults. -/
structure RequestPayload where
  method : Option String := none
  path : Option String := none
  status_code : Option ℤ := none
  duration : Option ℚ := none
  user_agent : Option String := none
  ip : Option String := none
deriving DecidableEq

/-- The record `record_request` appends to `self.request_metrics`. -/
structure RequestRecord where
  timestamp : ℚ
  method : String
  path : String
  status_code : ℤ
  duration : ℚ
  user_agent : Option String
  ip : Option String
deriving DecidableEq

/-- A trace record: the caller payload plus the ingestion timestamp
(`{**trace_data, 'timestamp': time.time()}`). -/
structure TraceRecord where
  data : Obj
  timestamp : ℚ
deriving DecidableEq

/-- An error record, stamped like a trace record. -/
structure ErrorRecord where
  data : Obj
  timestamp : ℚ
deriving DecidableEq

/-- `resource_data['memory']` sub-dict. -/
structure MemPayload where
  rss : Option ℚ := none
  percent : Option ℚ := none
deriving DecidableEq

/-- `resource_data['system']['memory']` sub-dict. -/
structure SysMemPayload where
  percent : Option ℚ := none
deriving DecidableEq

/-- `resource_data['system']` sub-dict. -/
structure SysPayload where
  load_average : Option (List ℚ) := none
  memory : Option SysMemPayload := none
deriving DecidableEq

/-- Input of `record_resource_metrics`. -/
structure ResourcePayload where
  cpu : Option ℚ := none
  memory : Option MemPayload := none
  system : Option SysPayload := none
deriving DecidableEq

/-- The record appended to `self.resource_metrics`
(`{'timestamp': now, **resource_data}`). -/
structure ResourceRecord where
  timestamp : ℚ
  cpu : Option ℚ
  memory : Option MemPayload
  system : Option SysPayload
deriving DecidableEq

/-- One entry of `self.custom_metrics`: a bounded deque of points plus an
accumulated attribute map. -/
structure CustomMetric where
  values : List Point
  attributes : Obj
deriving DecidableEq

/-- The capacities the store reads from its configuration at
construction: `max_traces`, `max_errors`, `max_metric_points`. -/
structure StoreCfg where
  maxTraces : ℕ
  maxErrors : ℕ
  maxMetricPoints : ℕ
deriving DecidableEq

/-- The `DataStore` state. `events` records the kinds of events emitted so
far (the callback side of `emit` is outside the model). -/
structure DataStore where
  maxTraces : ℕ
  maxErrors : ℕ
  maxMetricPoints : ℕ
  metrics : Metrics
  traces : List TraceRecord
  errors : List ErrorRecord
  custom_metrics : List (String × CustomMetric)
  resource_metrics : List ResourceRecord
  request_metrics : List RequestRecord
  events : List String
deriving DecidableEq

/-- `DataStore.__init__` without persistence loading: empty bounded
collections and the initialized metric structures. -/
def mkStore (cfg : StoreCfg) (now : ℚ) : DataStore :=
  { maxTraces := cfg.maxTraces
    maxErrors := cfg.maxErrors
    maxMetricPoints := cfg.maxMetricPoints
    metrics := initMetrics now
    traces := []
    errors := []
    custom_metrics := []
    resource_metrics := []
    request_metrics := []
    events := [] }

/-- `_add_time_series`: fetch the named metric, lazily create a bounded
deque if it has no `'values'` key, append the point, stamp the metric.
Python raises `KeyError` when the name is absent from `self.metrics`; all
call sites use names installed by `_initialize_metrics`, so that branch is
unreachable and modelled as a no-op. -/
def addTimeSeries (maxPts : ℕ) (m : Metrics) (name : String) (v ts : ℚ) :
    Metrics :=
  match lookupA m name with
  | none => m
  | some e =>
      let buf := (e.values.getD (SeriesBuf.bounded maxPts [])).push ⟨v, ts⟩
      setA m name { e with values := some buf, timestamp := ts }

/-- `self.metrics['http_requests_total']['value'] += 1` plus the timestamp
update at the start of `record_request`. -/
def bumpRequestsTotal (m : Metrics) (now : ℚ) : Metrics :=
  match lookupA m "http_requests_total" with
  | none => m
  | some e =>
      setA m "http_requests_total"
        { e with value := some (e.value.getD 0 + 1), timestamp := now }

/-- The error-rate computation of `_update_error_rate`: requests of the
strict trailing 300-second window, `100 * errored / total`, `0.0` when the
window is empty. -/
def errorRateCalc (reqs : List RequestRecord) (now : ℚ) : ℚ :=
  let recent := reqs.filter (fun r => decide (r.timestamp > now - 300))
  let errReqs := recent.filter (fun r => decide (400 ≤ r.status_code))
  if recent.isEmpty then 0
  else ((errReqs.length : ℚ) / (recent.length : ℚ)) * 100

/-- The metric write of `_update_error_rate` (same `KeyError` caveat as
`addTimeSeries`). -/
def setErrorRateMetric (m : Metrics) (rate now : ℚ) : Metrics :=
  match lookupA m "http_error_rate" with
  | none => m
  | some e =>
      setA m "http_error_rate"
        { e with value := some rate, timestamp := now }

/-- The count of `_calculate_requests_per_minute`: requests with
`timestamp > now - 60`. -/
def rpmCount (reqs : List RequestRecord) (now : ℚ) : ℕ :=
  (reqs.filter (fun r => decide (r.timestamp > now - 60))).length

/-- The request record built inside `record_request`, with the source's
defaults for absent fields. -/
def mkRequestRecord (p : RequestPayload) (now : ℚ) : RequestRecord :=
  { timestamp := now
    method := p.method.getD "GET"
    path := p.path.getD "/"
    status_code := p.status_code.getD 200
    duration := p.duration.getD 0
    user_agent := p.user_agent
    ip := p.ip }

/-- `record_request`, in source order: bump the total, append
`duration / 1000` to the duration series, recompute the error rate only
when `status_code >= 400` (over the log before the current request is
appended), append the request record, recompute requests-per-minute over
the updated log, emit a `request` event. Python reads `time.time()` once
at the top and the helpers read it again within the same instant; the
model uses the single instant `now`. -/
def recordRequest (s : DataStore) (p : RequestPayload) (now : ℚ) :
    DataStore :=
  let m1 := bumpRequestsTotal s.metrics now
  let m2 := addTimeSeries s.maxMetricPoints m1 "http_request_duration_seconds"
    (p.duration.getD 0 / 1000) now
  let m3 := if 400 ≤ p.status_code.getD 200 then
      setErrorRateMetric m2 (errorRateCalc s.request_metrics now) now
    else m2
  let reqs := dequeAppend s.maxMetricPoints s.request_metrics
    (mkRequestRecord p now)
  let m4 := addTimeSeries s.maxMetricPoints m3 "http_requests_per_minute"
    ((rpmCount reqs now : ℚ)) now
  { s with metrics := m4, request_metrics := reqs,
           events := s.events ++ ["request"] }

/-- `record_trace`: stamp with ingestion time, append to the bounded
trace log, emit a `trace` event. -/
def recordTrace (s : DataStore) (d : Obj) (now : ℚ) : DataStore :=
  { s with traces := dequeAppend s.maxTraces s.traces ⟨d, now⟩,
           events := s.events ++ ["trace"] }

/-- `record_error`: stamp with ingestion time, append to the bounded
error log, emit an `error` event. -/
def recordError (s : DataStore) (d : Obj) (now : ℚ) : DataStore :=
  { s with errors := dequeAppend s.maxErrors s.errors ⟨d, now⟩,
           events := s.events ++ ["error"] }

/-- The metric-series writes of `record_resource_metrics`, in source
order. Note `system['load_average']` is consulted for presence and Python
truthiness (a present empty list is skipped), while
`system['memory'].get('percent', 0)` always contributes, defaulting to 0. -/
def resourceSeriesUpdate (mp : ℕ) (m : Metrics) (d : ResourcePayload)
    (now : ℚ) : Metrics :=
  let m1 := match d.cpu with
    | some c => addTimeSeries mp m "process_cpu_percent" c now
    | none => m
  let m2 := match d.memory with
    | some mem =>
        let ma := match mem.rss with
          | some v => addTimeSeries mp m1 "process_memory_bytes" v now
          | none => m1
        match mem.percent with
        | some v => addTimeSeries mp ma "process_memory_percent" v now
        | none => ma
    | none => m1
  match d.system with
  | some sys =>
      let mb := match sys.load_average with
        | some (x :: _) => addTimeSeries mp m2 "system_load_average" x now
        | _ => m2
      match sys.memory with
      | some sm =>
          addTimeSeries mp mb "system_memory_usage" (sm.percent.getD 0) now
      | none => mb
  | none => m2

/-- `record_resource_metrics`: update the per-field series, append the
full stamped snapshot to the bounded resource log, emit a `resource`
event. -/
def recordResourceMetrics (s : DataStore) (d : ResourcePayload) (now : ℚ) :
    DataStore :=
  { s with
    metrics := resourceSeriesUpdate s.maxMetricPoints s.metrics d now
    resource_metrics := dequeAppend s.maxMetricPoints s.resource_metrics
      ⟨now, d.cpu, d.memory, d.system⟩
    events := s.events ++ ["resource"] }

/-- `record_custom_metric`: lazily create the named metric with a bounded
deque, append the point, merge attributes last-write-wins, emit a
`customMetric` event. -/
def recordCustomMetric (s : DataStore) (name : String) (value : ℚ)
    (attributes : Obj) (now : ℚ) : DataStore :=
  let metric := (lookupA s.custom_metrics name).getD
    { values := [], attributes := [] }
  let metric :=
    { values := dequeAppend s.maxMetricPoints metric.values ⟨value, now⟩
      attributes := updA metric.attributes attributes : CustomMetric }
  { s with custom_metrics := setA s.custom_metrics name metric,
           events := s.events ++ ["customMetric"] }

/-- `_percentile`: `None` on an empty list, else the element at index
`int(len * p)` clamped to `len - 1`. Python `int()` truncation coincides
with the floor for the non-negative products used here; `values[index]`
cannot go out of range after the clamp, so `getD` is exact. -/
def percentile (values : List ℚ) (p : ℚ) : Option ℚ :=
  if values.isEmpty then none
  else
    let idx := (Int.floor ((values.length : ℚ) * p)).toNat
    let idx := if values.length ≤ idx then values.length - 1 else idx
    some (values.getD idx 0)

/-- Python `sorted` on rationals: an ascending stable sort. -/
def sortAsc (l : List ℚ) : List ℚ :=
  List.insertionSort (· ≤ ·) l

/-- The `latency` part of the summary. -/
structure LatencySummary where
  p50 : ℚ
  p95 : ℚ
  p99 : ℚ
deriving DecidableEq

/-- The `requests` part of the summary. -/
structure RequestsSummary where
  total : ℚ
  per_minute : ℕ
  error_rate : ℚ
  latency : LatencySummary
deriving DecidableEq

/-- Result of `_get_latest_resource_metrics` when the resource log is
non-empty (the empty dict case is `none` at the use site). -/
structure ResourcesView where
  cpu : ℚ
  memory : Option MemPayload
  system : Option SysPayload
  timestamp : ℚ
deriving DecidableEq

/-- The summary returned by `_get_metrics_summary`. -/
structure MetricsSummary where
  requests : RequestsSummary
  resources : Option ResourcesView
  errors : ℕ
  traces : ℕ
deriving DecidableEq

/-- The full result of `get_metrics`. -/
structure StoreView where
  system : Metrics
  custom : List (String × CustomMetric)
  summary : MetricsSummary
deriving DecidableEq

/-- `_get_latest_resource_metrics`: the last resource record with
defaults applied (`{}` becomes `none`; every stored record carries a
timestamp, so the `time.time()` fallback is unreachable). -/
def latestResourceView (l : List ResourceRecord) : Option ResourcesView :=
  match l.getLast? with
  | none => none
  | some r =>
      some { cpu := r.cpu.getD 0, memory := r.memory, system := r.system,
             timestamp := r.timestamp }

/-- `_get_metrics_summary` at query instant `now`. Both `per_minute` and
`error_rate` are computed from the trailing 300-second window
`recent_requests`; the percentiles use the ascending sort of the
window's raw durations. `p50 or 0` maps the absent case (and a 0 value)
to 0, numerically the identity on our rationals. -/
def getMetricsSummary (s : DataStore) (now : ℚ) : MetricsSummary :=
  let recent := s.request_metrics.filter
    (fun r => decide (r.timestamp > now - 300))
  let errReqs := recent.filter (fun r => decide (400 ≤ r.status_code))
  let durations := sortAsc (recent.map (fun r => r.duration))
  { requests :=
      { total := ((lookupA s.metrics "http_requests_total").bind
          (fun e => e.value)).getD 0
        per_minute := recent.length
        error_rate := if recent.isEmpty then 0
          else ((errReqs.length : ℚ) / (recent.length : ℚ)) * 100
        latency :=
          { p50 := (percentile durations 0.5).getD 0
            p95 := (percentile durations 0.95).getD 0
            p99 := (percentile durations 0.99).getD 0 } }
    resources := latestResourceView s.resource_metrics
    errors := s.errors.length
    traces := s.traces.length }

/-- `get_metrics`. -/
def getMetrics (s : DataStore) (now : ℚ) : StoreView :=
  { system := s.metrics
    custom := s.custom_metrics
    summary := getMetricsSummary s now }

/-- Python slice `l[-limit:]` for an arbitrary integer `limit`: the last
`limit` elements when `limit > 0`, the whole list when `limit = 0`
(since `-0 = 0`), and `l[(-limit):]` dropping from the front when
`limit < 0`. -/
def pyTail {α : Type} (l : List α) (limit : ℤ) : List α :=
  if 0 < limit then l.drop (l.length - limit.toNat)
  else if limit = 0 then l
  else l.drop (Int.toNat (-limit))

/-- `get_traces(limit)`: `list(self.traces)[-limit:][::-1]`. -/
def getTraces (s : DataStore) (limit : ℤ) : List TraceRecord :=
  (pyTail s.traces limit).reverse

/-- `get_errors(limit)`. -/
def getErrors (s : DataStore) (limit : ℤ) : List ErrorRecord :=
  (pyTail s.errors limit).reverse

/-- `get_requests(limit)`. -/
def getRequests (s : DataStore) (limit : ℤ) : List RequestRecord :=
  (pyTail s.request_metrics limit).reverse

/-- The document `_persist_data` serializes. -/
structure PersistedData where
  metrics : Metrics
  custom_metrics : List (String × CustomMetric)
  traces : List TraceRecord
  errors : List ErrorRecord
  request_metrics : List RequestRecord
  resource_metrics : List ResourceRecord
  timestamp : ℚ
deriving DecidableEq

/-- `_persist_data`'s data construction (file write abstracted). -/
def persistData (s : DataStore) (now : ℚ) : PersistedData :=
  { metrics := s.metrics
    custom_metrics := s.custom_metrics
    traces := s.traces
    errors := s.errors
    request_metrics := s.request_metrics
    resource_metrics := s.resource_metrics
    timestamp := now }

/-- `_load_persisted_data`'s state merge after deserialization:
`metrics.update`, custom metrics rebuilt as `deque(values, maxlen)`
(keeping the newest points), and the four deque collections extended,
which keeps the newest entries up to each capacity. -/
def loadPersistedData (s : DataStore) (d : PersistedData) : DataStore :=
  { s with
    metrics := updA s.metrics d.metrics
    custom_metrics := foldSet
      (fun _ cm => { values := takeLast s.maxMetricPoints cm.values
                     attributes := cm.attributes : CustomMetric })
      s.custom_metrics d.custom_metrics
    traces := takeLast s.maxTraces (s.traces ++ d.traces)
    errors := takeLast s.maxErrors (s.errors ++ d.errors)
    request_metrics := takeLast s.maxMetricPoints
      (s.request_metrics ++ d.request_metrics)
    resource_metrics := takeLast s.maxMetricPoints
      (s.resource_metrics ++ d.resource_metrics) }

/-- `clear`: empty every collection, reinitialize the metric structures,
emit a `clear` event. -/
def clearStore (s : DataStore) (now : ℚ) : DataStore :=
  { s with
    metrics := initMetrics now
    custom_metrics := []
    traces := []
    errors := []
    request_metrics := []
    resource_metrics := []
    events := s.events ++ ["clear"] }

/-- `get_stats`. -/
def getStats (s : DataStore) : List (String × ℕ) :=
  [("metrics", s.metrics.length),
   ("custom_metrics", s.custom_metrics.length),
   ("traces", s.traces.length),
   ("errors", s.errors.length),
   ("requests", s.request_metrics.length),
   ("resource_metrics", s.resource_metrics.length)]

/-- The points stored under a metric name's `'values'` key ([] when the
name or the key is absent). -/
def seriesPointsM (m : Metrics) (name : String) : List Point :=
  match lookupA m name with
  | some e =>
      match e.values with
      | some b => b.points
      | none => []
  | none => []

/-- The scalar stored under a metric name's `'value'` key. -/
def metricValueM (m : Metrics) (name : String) : Option ℚ :=
  (lookupA m name).bind (fun e => e.value)

/-!
Configuration (`config.py`). The embedding restricts the configuration
object to the fields `_validate_config` inspects (plus
`max_metric_points`, which the store reads); the remaining fields do not
affect validation. Environment variables are modelled after parsing: an
absent variable is `none` and the built-in default applies.
-/

/-- The merged configuration restricted to the validated fields. -/
structure Config where
  dashboard_port : ℤ
  prometheus_port : ℤ
  sample_rate : ℚ
  metrics_interval : ℤ
  resource_interval : ℤ
  max_traces : ℤ
  max_errors : ℤ
  max_metric_points : ℤ
  cpu_threshold : ℚ
deriving DecidableEq

/-- Environment-sourced values (after `int`/`float` parsing); `none`
means the variable is unset and the built-in default applies. -/
structure EnvValues where
  dashboard_port : Option ℤ := none
  prometheus_port : Option ℤ := none
  sample_rate : Option ℚ := none
  metrics_interval : Option ℤ := none
  resource_interval : Option ℤ := none
  max_traces : Option ℤ := none
  max_errors : Option ℤ := none
  max_metric_points : Option ℤ := none
  cpu_threshold : Option ℚ := none
deriving DecidableEq

/-- Caller-supplied options (`ConfigManager(options)`); an absent key is
`none`. -/
structure ConfigOptions where
  dashboard_port : Option ℤ := none
  prometheus_port : Option ℤ := none
  sample_rate : Option ℚ := none
  metrics_interval : Option ℤ := none
  resource_interval : Option ℤ := none
  max_traces : Option ℤ := none
  max_errors : Option ℤ := none
  max_metric_points : Option ℤ := none
  cpu_threshold : Option ℚ := none
deriving DecidableEq

/-- `{**default_config, **options}`: built-in defaults, overridden by
environment values, overridden by caller options. -/
def mergeConfig (env : EnvValues) (opts : ConfigOptions) : Config :=
  { dashboard_port := opts.dashboard_port.getD (env.dashboard_port.getD 8001)
    prometheus_port := opts.prometheus_port.getD (env.prometheus_port.getD 9090)
    sample_rate := opts.sample_rate.getD (env.sample_rate.getD 1)
    metrics_interval := opts.metrics_interval.getD (env.metrics_interval.getD 5000)
    resource_interval := opts.resource_interval.getD (env.resource_interval.getD 5000)
    max_traces := opts.max_traces.getD (env.max_traces.getD 1000)
    max_errors := opts.max_errors.getD (env.max_errors.getD 500)
    max_metric_points := opts.max_metric_points.getD (env.max_metric_points.getD 1440)
    cpu_threshold := opts.cpu_threshold.getD (env.cpu_threshold.getD 80) }

/-- `_validate_config`: the checks, in source order; the first violated
check raises `ValueError`. -/
def validateConfig (c : Config) : Except String Unit :=
  if ¬ (1 ≤ c.dashboard_port ∧ c.dashboard_port ≤ 65535) then
    Except.error "Invalid dashboard port"
  else if ¬ (1 ≤ c.prometheus_port ∧ c.prometheus_port ≤ 65535) then
    Except.error "Invalid Prometheus port"
  else if ¬ (0 ≤ c.sample_rate ∧ c.sample_rate ≤ 1) then
    Except.error "Invalid sample rate"
  else if c.metrics_interval < 1000 then
    Except.error "Metrics interval too low"
  else if c.resource_interval < 1000 then
    Except.error "Resource interval too low"
  else if c.max_traces < 1 then
    Except.error "Invalid max_traces"
  else if c.max_errors < 1 then
    Except.error "Invalid max_errors"
  else if ¬ (0 ≤ c.cpu_threshold ∧ c.cpu_threshold ≤ 100) then
    Except.error "Invalid CPU threshold"
  else Except.ok ()

/-- `_build_config`: merge, then validate; a validation failure
propagates (construction fails fast), otherwise the merged configuration
is returned. -/
def buildConfig (env : EnvValues) (opts : ConfigOptions) :
    Except String Config :=
  match validateConfig (mergeConfig env opts) with
  | Except.ok _ => Except.ok (mergeConfig env opts)
  | Except.error e => Except.error e

/-- The range conditions of `_validate_config`, as one predicate. -/
def validConfig (c : Config) : Prop :=
  (1 ≤ c.dashboard_port ∧ c.dashboard_port ≤ 65535) ∧
  (1 ≤ c.prometheus_port ∧ c.prometheus_port ≤ 65535) ∧
  (0 ≤ c.sample_rate ∧ c.sample_rate ≤ 1) ∧
  1000 ≤ c.metrics_interval ∧
  1000 ≤ c.resource_interval ∧
  1 ≤ c.max_traces ∧
  1 ≤ c.max_errors ∧
  (0 ≤ c.cpu_threshold ∧ c.cpu_threshold ≤ 100)

instance (c : Config) : Decidable (validConfig c) := by
  unfold validConfig; infer_instance

/-!
Reachable store states and their invariant. In every state produced by
construction and the record/clear operations, `self.metrics` holds
exactly the ten initialized names: three scalar (`'value'`) entries and
seven series entries whose `'values'` are plain (unbounded) lists. The
shape below captures that, with one field per varying component.
-/

/-- The varying components of a reachable `self.metrics` dict. -/
structure MetricsShape where
  total : ℚ
  totalTs : ℚ
  dur : List Point
  durTs : ℚ
  rpm : List Point
  rpmTs : ℚ
  errRate : ℚ
  errTs : ℚ
  active : ℚ
  activeTs : ℚ
  cpu : List Point
  cpuTs : ℚ
  memB : List Point
  memBTs : ℚ
  memP : List Point
  memPTs : ℚ
  loadAvg : List Point
  loadTs : ℚ
  sysMem : List Point
  sysMemTs : ℚ
deriving DecidableEq

/-- The metrics dict determined by a shape. -/
def shapeMetrics (sh : MetricsShape) : Metrics :=
  [("http_requests_total",
      { value := some sh.total, values := none, timestamp := sh.totalTs }),
   ("http_request_duration_seconds",
      { value := none, values := some (.unbounded sh.dur), timestamp := sh.durTs }),
   ("http_requests_per_minute",
      { value := none, values := some (.unbounded sh.rpm), timestamp := sh.rpmTs }),
   ("http_error_rate",
      { value := some sh.errRate, values := none, timestamp := sh.errTs }),
   ("active_requests",
      { value := some sh.active, values := none, timestamp := sh.activeTs }),
   ("process_cpu_percent",
      { value := none, values := some (.unbounded sh.cpu), timestamp := sh.cpuTs }),
   ("process_memory_bytes",
      { value := none, values := some (.unbounded sh.memB), timestamp := sh.memBTs }),
   ("process_memory_percent",
      { value := none, values := some (.unbounded sh.memP), timestamp := sh.memPTs }),
   ("system_load_average",
      { value := none, values := some (.unbounded sh.loadAvg), timestamp := sh.loadTs }),
   ("system_memory_usage",
      { value := none, values := some (.unbounded sh.sysMem), timestamp := sh.sysMemTs })]

/-- Shape of a freshly initialized metrics dict. -/
def initShape (now : ℚ) : MetricsShape :=
  { total := 0, totalTs := now, dur := [], durTs := now, rpm := [], rpmTs := now,
    errRate := 0, errTs := now, active := 0, activeTs := now,
    cpu := [], cpuTs := now, memB := [], memBTs := now, memP := [], memPTs := now,
    loadAvg := [], loadTs := now, sysMem := [], sysMemTs := now }

/-- A metrics dict of the reachable shape. -/
def MetricsShaped (m : Metrics) : Prop :=
  ∃ sh, m = shapeMetrics sh

/-- Store states reachable through construction and the public mutating
operations. -/
inductive Reachable : DataStore → Prop where
  | init (cfg : StoreCfg) (t : ℚ) : Reachable (mkStore cfg t)
  | req (s : DataStore) (p : RequestPayload) (t : ℚ) :
      Reachable s → Reachable (recordRequest s p t)
  | tr (s : DataStore) (d : Obj) (t : ℚ) :
      Reachable s → Reachable (recordTrace s d t)
  | er (s : DataStore) (d : Obj) (t : ℚ) :
      Reachable s → Reachable (recordError s d t)
  | res (s : DataStore) (d : ResourcePayload) (t : ℚ) :
      Reachable s → Reachable (recordResourceMetrics s d t)
  | custom (s : DataStore) (n : String) (v : ℚ) (a : Obj) (t : ℚ) :
      Reachable s → Reachable (recordCustomMetric s n v a t)
  | clr (s : DataStore) (t : ℚ) :
      Reachable s → Reachable (clearStore s t)

/-- The invariant maintained by every reachable state. -/
structure StoreInv (s : DataStore) : Prop where
  shaped : MetricsShaped s.metrics
  trLen : s.traces.length ≤ s.maxTraces
  errLen : s.errors.length ≤ s.maxErrors
  reqLen : s.request_metrics.length ≤ s.maxMetricPoints
  resLen : s.resource_metrics.length ≤ s.maxMetricPoints
  customNodup : (s.custom_metrics.map Prod.fst).Nodup

/-- The effect of `record_resource_metrics`'s metric writes at the shape
level. -/
def resourceShapeUpdate (sh : MetricsShape) (d : ResourcePayload) (t : ℚ) :
    MetricsShape :=
  let s1 := match d.cpu with
    | some c => { sh with cpu := sh.cpu ++ [⟨c, t⟩], cpuTs := t }
    | none => sh
  let s2 := match d.memory with
    | some mem =>
        let sa := match mem.rss with
          | some v => { s1 with memB := s1.memB ++ [⟨v, t⟩], memBTs := t }
          | none => s1
        match mem.percent with
        | some v => { sa with memP := sa.memP ++ [⟨v, t⟩], memPTs := t }
        | none => sa
    | none => s1
  match d.system with
  | some sys =>
      let sb := match sys.load_average with
        | some (x :: _) =>
            { s2 with loadAvg := s2.loadAvg ++ [⟨x, t⟩], loadTs := t }
        | _ => s2
      match sys.memory with
      | some sm =>
          { sb with sysMem := sb.sysMem ++ [⟨sm.percent.getD 0, t⟩],
                    sysMemTs := t }
      | none => sb
  | none => s2

/-- The trailing-window request list used by `_get_metrics_summary` (and,
with the same window, by `_update_error_rate`). -/
def recentReqs (s : DataStore) (now : ℚ) : List RequestRecord :=
  s.request_metrics.filter (fun r => decide (r.timestamp > now - 300))

/-- The ascending-sorted duration sample of the trailing window. -/
def sortedDurations (s : DataStore) (now : ℚ) : List ℚ :=
  sortAsc ((recentReqs s now).map (fun r => r.duration))

/-! Concrete states used by witnesses and counterexamples. -/

/-- A small configuration: every capacity is 5. -/
def cfg5 : StoreCfg := ⟨5, 5, 5⟩

/-- A freshly constructed store with capacities 5, at instant 0. -/
def emptyStore5 : DataStore := mkStore cfg5 0

/-- Three requests recorded into a store whose `max_metric_points` is 2. -/
def s_capacity : DataStore :=
  recordRequest (recordRequest (recordRequest (mkStore ⟨2, 2, 2⟩ 0)
    { duration := some 1 } 1) { duration := some 2 } 2)
    { duration := some 3 } 3

/-- Three traces recorded into a store whose `max_traces` is 2. -/
def s_traceCap : DataStore :=
  recordTrace (recordTrace (recordTrace (mkStore ⟨2, 2, 2⟩ 0) [] 1) [] 2) [] 3

/-- One request recorded at instant 0. -/
def s_oneReq : DataStore := recordRequest emptyStore5 {} 0

/-- One errored request recorded at instant 10 into a fresh store. -/
def s_oneError : DataStore :=
  recordRequest emptyStore5 { status_code := some 500 } 10

/-- One trace recorded at instant 1. -/
def s_oneTrace : DataStore := recordTrace emptyStore5 [("kind", Val.str "db")] 1

/-- Five requests with durations 10, 20, 30, 40, 50 ms. -/
def s_perc : DataStore :=
  recordRequest (recordRequest (recordRequest (recordRequest (recordRequest
    (mkStore cfg5 91) { duration := some 10 } 92) { duration := some 20 } 93)
    { duration := some 30 } 94) { duration := some 40 } 95)
    { duration := some 50 } 96

/-- Ten requests at instants 1..10, the first three with status 500. -/
def s_tenReqs : DataStore :=
  recordRequest (recordRequest (recordRequest (recordRequest (recordRequest
    (recordRequest (recordRequest (recordRequest (recordRequest (recordRequest
      (mkStore ⟨20, 20, 20⟩ 0)
      { status_code := some 500 } 1) { status_code := some 500 } 2)
      { status_code := some 500 } 3) { status_code := some 200 } 4)
      { status_code := some 200 } 5) { status_code := some 200 } 6)
      { status_code := some 200 } 7) { status_code := some 200 } 8)
      { status_code := some 200 } 9) { status_code := some 200 } 10

/-- Environment values for the configuration witness: the environment
sets the dashboard port and the sample rate. -/
def envW : EnvValues := { dashboard_port := some 9000, sample_rate := some 0.25 }

/-- Caller options for the configuration witness: the caller overrides
the dashboard port. -/
def optsW : ConfigOptions := { dashboard_port := some 8080 }

/-! Helper lemmas about the container operations. -/

theorem initMetrics_eq_shape (now : ℚ) :
    initMetrics now = shapeMetrics (initShape now) := rfl

theorem takeLast_length_le {α : Type} (n : ℕ) (l : List α) :
    (takeLast n l).length ≤ n := by
  unfold takeLast
  rw [List.length_drop]
  omega

theorem takeLast_eq_of_le {α : Type} {n : ℕ} {l : List α}
    (h : l.length ≤ n) : takeLast n l = l := by
  unfold takeLast
  rw [Nat.sub_eq_zero_of_le h, List.drop_zero]

theorem dequeAppend_length_le {α : Type} (cap : ℕ) (l : List α) (x : α) :
    (dequeAppend cap l x).length ≤ cap :=
  takeLast_length_le cap (l ++ [x])

theorem getLast?_takeLast_concat {α : Type} (k : ℕ) (hk : 1 ≤ k)
    (l : List α) (x : α) : (takeLast k (l ++ [x])).getLast? = some x := by
  unfold takeLast
  have hj : (l ++ [x]).length - k ≤ l.length := by
    rw [List.length_append]
    simp only [List.length_cons, List.length_nil]
    omega
  rw [List.drop_append_of_le_length hj]
  exact List.getLast?_concat _

theorem reverse_takeLast {α : Type} (l : List α) (k : ℕ) :
    (takeLast k l).reverse = l.reverse.take k := by
  unfold takeLast
  rw [List.take_reverse]

theorem pyTail_pos {α : Type} (l : List α) (limit : ℤ) (h : 0 < limit) :
    pyTail l limit = takeLast limit.toNat l := by
  unfold pyTail takeLast
  rw [if_pos h]

/-! Association-list lemmas. -/

theorem lookupA_setA_self {α : Type} (m : List (String × α)) (k : String)
    (v : α) : lookupA (setA m k v) k = some v := by
  induction m with
  | nil => simp [setA, lookupA]
  | cons e rest ih =>
      by_cases h : e.1 = k
      · simp [setA, h, lookupA]
      · simp [setA, h, lookupA, ih]

theorem lookupA_setA_ne {α : Type} (m : List (String × α)) {k0 k : String}
    (v : α) (h : k0 ≠ k) : lookupA (setA m k0 v) k = lookupA m k := by
  induction m with
  | nil => simp [setA, lookupA, h]
  | cons e rest ih =>
      by_cases he : e.1 = k0
      · simp [setA, he, lookupA, h]
      · simp only [setA, he, if_false, lookupA]
        by_cases hek : e.1 = k
        · simp [hek]
        · simp [hek, ih]

theorem lookupA_eq_none_iff {α : Type} (m : List (String × α)) (k : String) :
    lookupA m k = none ↔ k ∉ m.map Prod.fst := by
  induction m with
  | nil => simp [lookupA]
  | cons e rest ih =>
      by_cases h : e.1 = k
      · simp [lookupA, h]
      · simp [lookupA, h, ih, Ne.symm h]

theorem setA_keys_of_mem {α : Type} {m : List (String × α)} {k : String}
    (v : α) (h : k ∈ m.map Prod.fst) :
    (setA m k v).map Prod.fst = m.map Prod.fst := by
  induction m with
  | nil => simp at h
  | cons e rest ih =>
      by_cases he : e.1 = k
      · simp [setA, he]
      · have hk : k ∈ rest.map Prod.fst := by
          simp only [List.map_cons, List.mem_cons] at h
          rcases h with h | h
          · exact absurd h.symm he
          · exact h
        simp [setA, he, ih hk]

theorem setA_keys_of_notmem {α : Type} {m : List (String × α)} {k : String}
    (v : α) (h : k ∉ m.map Prod.fst) :
    (setA m k v).map Prod.fst = m.map Prod.fst ++ [k] := by
  induction m with
  | nil => simp [setA]
  | cons e rest ih =>
      have he : e.1 ≠ k := by
        intro hek
        exact h (by simp [hek])
      have hk : k ∉ rest.map Prod.fst := by
        intro hin
        exact h (by simp [hin])
      simp [setA, he, ih hk]

theorem setA_keys_nodup {α : Type} {m : List (String × α)} (k : String)
    (v : α) (h : (m.map Prod.fst).Nodup) :
    ((setA m k v).map Prod.fst).Nodup := by
  by_cases hk : k ∈ m.map Prod.fst
  · rw [setA_keys_of_mem v hk]
    exact h
  · rw [setA_keys_of_notmem v hk]
    rw [List.nodup_append]
    exact ⟨h, List.nodup_singleton k, by simpa using hk⟩

theorem lookupA_foldSet_of_notmem {α β : Type} (f : String → β → α)
    (l : List (String × β)) (base : List (String × α)) (k : String)
    (hk : k ∉ l.map Prod.fst) :
    lookupA (foldSet f base l) k = lookupA base k := by
  induction l generalizing base with
  | nil => rfl
  | cons e rest ih =>
      have he : e.1 ≠ k := by
        intro hek
        exact hk (by simp [hek])
      have hrest : k ∉ rest.map Prod.fst := by
        intro hin
        exact hk (by simp [hin])
      show lookupA (foldSet f (setA base e.1 (f e.1 e.2)) rest) k = _
      rw [ih _ hrest, lookupA_setA_ne _ _ he]

theorem lookupA_foldSet_of_mem {α β : Type} (f : String → β → α)
    (l : List (String × β)) (base : List (String × α)) (k : String) (v : β)
    (hnd : (l.map Prod.fst).Nodup) (hv : lookupA l k = some v) :
    lookupA (foldSet f base l) k = some (f k v) := by
  induction l generalizing base with
  | nil => simp [lookupA] at hv
  | cons e rest ih =>
      simp only [List.map_cons, List.nodup_cons] at hnd
      by_cases he : e.1 = k
      · have hv0 : e.2 = v := by
          simp [lookupA, he] at hv
          exact hv
        have hrest : k ∉ rest.map Prod.fst := he ▸ hnd.1
        show lookupA (foldSet f (setA base e.1 (f e.1 e.2)) rest) k = _
        rw [lookupA_foldSet_of_notmem f rest _ k hrest, ← he,
          lookupA_setA_self, he, hv0]
      · have hv' : lookupA rest k = some v := by
          simpa [lookupA, he] using hv
        show lookupA (foldSet f (setA base e.1 (f e.1 e.2)) rest) k = _
        exact ih (setA base e.1 (f e.1 e.2)) hnd.2 hv'

/-! Shape-step lemmas: each metric write of the record operations maps a
shaped metrics dict to a shaped one. All are definitional. -/

theorem bump_shape (sh : MetricsShape) (now : ℚ) :
    bumpRequestsTotal (shapeMetrics sh) now
      = shapeMetrics { sh with total := sh.total + 1, totalTs := now } := rfl

theorem setErr_shape (sh : MetricsShape) (rate now : ℚ) :
    setErrorRateMetric (shapeMetrics sh) rate now
      = shapeMetrics { sh with errRate := rate, errTs := now } := rfl

theorem addTS_dur_shape (mp : ℕ) (sh : MetricsShape) (v t : ℚ) :
    addTimeSeries mp (shapeMetrics sh) "http_request_duration_seconds" v t
      = shapeMetrics { sh with dur := sh.dur ++ [⟨v, t⟩], durTs := t } := rfl

theorem addTS_rpm_shape (mp : ℕ) (sh : MetricsShape) (v t : ℚ) :
    addTimeSeries mp (shapeMetrics sh) "http_requests_per_minute" v t
      = shapeMetrics { sh with rpm := sh.rpm ++ [⟨v, t⟩], rpmTs := t } := rfl

theorem addTS_cpu_shape (mp : ℕ) (sh : MetricsShape) (v t : ℚ) :
    addTimeSeries mp (shapeMetrics sh) "process_cpu_percent" v t
      = shapeMetrics { sh with cpu := sh.cpu ++ [⟨v, t⟩], cpuTs := t } := rfl

theorem addTS_memB_shape (mp : ℕ) (sh : MetricsShape) (v t : ℚ) :
    addTimeSeries mp (shapeMetrics sh) "process_memory_bytes" v t
      = shapeMetrics { sh with memB := sh.memB ++ [⟨v, t⟩], memBTs := t } := rfl

theorem addTS_memP_shape (mp : ℕ) (sh : MetricsShape) (v t : ℚ) :
    addTimeSeries mp (shapeMetrics sh) "process_memory_percent" v t
      = shapeMetrics { sh with memP := sh.memP ++ [⟨v, t⟩], memPTs := t } := rfl

theorem addTS_load_shape (mp : ℕ) (sh : MetricsShape) (v t : ℚ) :
    addTimeSeries mp (shapeMetrics sh) "system_load_average" v t
      = shapeMetrics { sh with loadAvg := sh.loadAvg ++ [⟨v, t⟩], loadTs := t } := rfl

theorem addTS_sysMem_shape (mp : ℕ) (sh : MetricsShape) (v t : ℚ) :
    addTimeSeries mp (shapeMetrics sh) "system_memory_usage" v t
      = shapeMetrics { sh with sysMem := sh.sysMem ++ [⟨v, t⟩], sysMemTs := t } := rfl

theorem updA_shape (a b : MetricsShape) :
    updA (shapeMetrics a) (shapeMetrics b) = shapeMetrics b := rfl

theorem seriesPointsM_dur_shape (sh : MetricsShape) :
    seriesPointsM (shapeMetrics sh) "http_request_duration_seconds"
      = sh.dur := rfl

theorem seriesPointsM_rpm_shape (sh : MetricsShape) :
    seriesPointsM (shapeMetrics sh) "http_requests_per_minute"
      = sh.rpm := rfl

theorem seriesPointsM_sysMem_shape (sh : MetricsShape) :
    seriesPointsM (shapeMetrics sh) "system_memory_usage"
      = sh.sysMem := rfl

theorem metricValueM_err_shape (sh : MetricsShape) :
    metricValueM (shapeMetrics sh) "http_error_rate"
      = some sh.errRate := rfl

/-! Operation-level lemmas. -/

/-- `record_request` on a store with a shaped metrics dict, written out:
the total is bumped, a `duration/1000` point lands on the duration
series, the error rate is recomputed (over the pre-append request log)
only for `status_code >= 400`, and the requests-per-minute point counts
the post-append log over the strict trailing 60-second window. -/
theorem recordRequest_eq (s : DataStore) (p : RequestPayload) (t : ℚ)
    (sh : MetricsShape) (hsh : s.metrics = shapeMetrics sh) :
    recordRequest s p t =
      { s with
        metrics := shapeMetrics
          { sh with
            total := sh.total + 1, totalTs := t,
            dur := sh.dur ++ [⟨p.duration.getD 0 / 1000, t⟩], durTs := t,
            errRate := if 400 ≤ p.status_code.getD 200 then
                errorRateCalc s.request_metrics t
              else sh.errRate,
            errTs := if 400 ≤ p.status_code.getD 200 then t else sh.errTs,
            rpm := sh.rpm ++
              [⟨(rpmCount (dequeAppend s.maxMetricPoints s.request_metrics
                  (mkRequestRecord p t)) t : ℚ), t⟩],
            rpmTs := t }
        request_metrics := dequeAppend s.maxMetricPoints s.request_metrics
          (mkRequestRecord p t)
        events := s.events ++ ["request"] } := by
  unfold recordRequest
  rw [hsh]
  by_cases hsc : 400 ≤ p.status_code.getD 200
  · simp only [hsc, if_true, bump_shape, addTS_dur_shape, setErr_shape,
      addTS_rpm_shape]
  · simp only [hsc, if_false, bump_shape, addTS_dur_shape, addTS_rpm_shape]

theorem recordRequest_traces (s : DataStore) (p : RequestPayload) (t : ℚ) :
    (recordRequest s p t).traces = s.traces := rfl

theorem recordRequest_errors (s : DataStore) (p : RequestPayload) (t : ℚ) :
    (recordRequest s p t).errors = s.errors := rfl

theorem recordRequest_request_metrics (s : DataStore) (p : RequestPayload)
    (t : ℚ) : (recordRequest s p t).request_metrics
      = dequeAppend s.maxMetricPoints s.request_metrics
          (mkRequestRecord p t) := rfl

theorem resourceSeriesUpdate_shape (mp : ℕ) (sh : MetricsShape)
    (d : ResourcePayload) (t : ℚ) :
    resourceSeriesUpdate mp (shapeMetrics sh) d t
      = shapeMetrics (resourceShapeUpdate sh d t) := by
  rcases d with ⟨cpu, mem, sys⟩
  rcases cpu with _ | c <;>
    rcases mem with _ | ⟨rss, pct⟩ <;>
    rcases sys with _ | ⟨la, smem⟩
  all_goals try rcases rss with _ | rv
  all_goals try rcases pct with _ | pv
  all_goals try rcases la with _ | (_ | ⟨x, xs⟩)
  all_goals try rcases smem with _ | ⟨spct⟩
  all_goals rfl

/-- Shape preservation for `record_resource_metrics`'s metric writes. -/
theorem resourceSeriesUpdate_shaped (mp : ℕ) (m : Metrics)
    (d : ResourcePayload) (t : ℚ) (hm : MetricsShaped m) :
    MetricsShaped (resourceSeriesUpdate mp m d t) := by
  obtain ⟨sh, rfl⟩ := hm
  rw [resourceSeriesUpdate_shape]
  exact ⟨_, rfl⟩

/-- Every reachable state satisfies the invariant. -/
theorem reachable_inv {s : DataStore} (h : Reachable s) : StoreInv s := by
  induction h with
  | init cfg t =>
      exact ⟨⟨initShape t, rfl⟩, Nat.zero_le _, Nat.zero_le _,
        Nat.zero_le _, Nat.zero_le _, List.nodup_nil⟩
  | req s p t _ ih =>
      obtain ⟨sh, hsh⟩ := ih.shaped
      rw [recordRequest_eq s p t sh hsh]
      exact ⟨⟨_, rfl⟩, ih.trLen, ih.errLen,
        dequeAppend_length_le _ _ _, ih.resLen, ih.customNodup⟩
  | tr s d t _ ih =>
      exact ⟨ih.shaped, dequeAppend_length_le _ _ _, ih.errLen,
        ih.reqLen, ih.resLen, ih.customNodup⟩
  | er s d t _ ih =>
      exact ⟨ih.shaped, ih.trLen, dequeAppend_length_le _ _ _,
        ih.reqLen, ih.resLen, ih.customNodup⟩
  | res s d t _ ih =>
      exact ⟨resourceSeriesUpdate_shaped _ _ d t ih.shaped,
        ih.trLen, ih.errLen, ih.reqLen,
        dequeAppend_length_le _ _ _, ih.customNodup⟩
  | custom s n v a t _ ih =>
      exact ⟨ih.shaped, ih.trLen, ih.errLen, ih.reqLen, ih.resLen,
        setA_keys_nodup n _ ih.customNodup⟩
  | clr s t _ _ =>
      exact ⟨⟨initShape t, rfl⟩, Nat.zero_le _, Nat.zero_le _,
        Nat.zero_le _, Nat.zero_le _, List.nodup_nil⟩

/-- The summary depends only on the five components it reads. -/
theorem summary_congr {a b : DataStore} (now : ℚ)
    (h1 : a.metrics = b.metrics)
    (h2 : a.request_metrics = b.request_metrics)
    (h3 : a.resource_metrics = b.resource_metrics)
    (h4 : a.errors = b.errors) (h5 : a.traces = b.traces) :
    getMetricsSummary a now = getMetricsSummary b now := by
  unfold getMetricsSummary
  rw [h1, h2, h3, h4, h5]

/-- `_percentile` on a non-empty list is floor-index selection clamped to
the last index. -/
theorem percentile_eq (values : List ℚ) (p : ℚ) (hne : values ≠ []) :
    percentile values p =
      some (values.getD
        (min ((Int.floor ((values.length : ℚ) * p)).toNat)
          (values.length - 1)) 0) := by
  unfold percentile
  rw [if_neg (by simpa [List.isEmpty_iff] using hne)]
  have hlen : 1 ≤ values.length := List.length_pos.mpr hne
  have hidx : (if values.length ≤ (Int.floor ((values.length : ℚ) * p)).toNat
        then values.length - 1
        else (Int.floor ((values.length : ℚ) * p)).toNat)
      = min ((Int.floor ((values.length : ℚ) * p)).toNat)
          (values.length - 1) := by
    generalize (Int.floor ((values.length : ℚ) * p)).toNat = i
    by_cases hc : values.length ≤ i
    · simp only [hc, if_true]
      omega
    · simp only [hc, if_false]
      omega
  simp only [hidx]

theorem recordResourceMetrics_metrics (s : DataStore) (d : ResourcePayload)
    (t : ℚ) : (recordResourceMetrics s d t).metrics
      = resourceSeriesUpdate s.maxMetricPoints s.metrics d t := rfl

/-- `_validate_config` succeeds exactly when every range condition
holds. -/
theorem validateConfig_ok_iff (c : Config) :
    validateConfig c = Except.ok () ↔ validConfig c := by
  unfold validConfig
  constructor
  · intro h
    unfold validateConfig at h
    split_ifs at h with h1 h2 h3 h4 h5 h6 h7 h8
    exact ⟨h1, h2, h3, not_lt.mp h4, not_lt.mp h5, not_lt.mp h6,
      not_lt.mp h7, h8⟩
  · intro hv
    unfold validateConfig
    rw [if_neg (not_not.mpr hv.1), if_neg (not_not.mpr hv.2.1),
      if_neg (not_not.mpr hv.2.2.1), if_neg (not_lt.mpr hv.2.2.2.1),
      if_neg (not_lt.mpr hv.2.2.2.2.1), if_neg (not_lt.mpr hv.2.2.2.2.2.1),
      if_neg (not_lt.mpr hv.2.2.2.2.2.2.1),
      if_neg (not_not.mpr hv.2.2.2.2.2.2.2)]

/-! Structural evaluations of the concrete stores (no rational
arithmetic is forced, so these are definitional). -/

theorem s_oneReq_reqs : s_oneReq.request_metrics
    = [{ timestamp := 0, method := "GET", path := "/", status_code := 200,
         duration := 0, user_agent := none, ip := none }] := rfl

theorem s_oneError_reqs : s_oneError.request_metrics
    = [{ timestamp := 10, method := "GET", path := "/", status_code := 500,
         duration := 0, user_agent := none, ip := none }] := rfl

theorem s_perc_reqs : s_perc.request_metrics
    = [{ timestamp := 92, method := "GET", path := "/", status_code := 200,
         duration := 10, user_agent := none, ip := none },
       { timestamp := 93, method := "GET", path := "/", status_code := 200,
         duration := 20, user_agent := none, ip := none },
       { timestamp := 94, method := "GET", path := "/", status_code := 200,
         duration := 30, user_agent := none, ip := none },
       { timestamp := 95, method := "GET", path := "/", status_code := 200,
         duration := 40, user_agent := none, ip := none },
       { timestamp := 96, method := "GET", path := "/", status_code := 200,
         duration := 50, user_agent := none, ip := none }] := rfl

theorem s_tenReqs_reqs : s_tenReqs.request_metrics
    = [{ timestamp := 1, method := "GET", path := "/", status_code := 500,
         duration := 0, user_agent := none, ip := none },
       { timestamp := 2, method := "GET", path := "/", status_code := 500,
         duration := 0, user_agent := none, ip := none },
       { timestamp := 3, method := "GET", path := "/", status_code := 500,
         duration := 0, user_agent := none, ip := none },
       { timestamp := 4, method := "GET", path := "/", status_code := 200,
         duration := 0, user_agent := none, ip := none },
       { timestamp := 5, method := "GET", path := "/", status_code := 200,
         duration := 0, user_agent := none, ip := none },
       { timestamp := 6, method := "GET", path := "/", status_code := 200,
         duration := 0, user_agent := none, ip := none },
       { timestamp := 7, method := "GET", path := "/", status_code := 200,
         duration := 0, user_agent := none, ip := none },
       { timestamp := 8, method := "GET", path := "/", status_code := 200,
         duration := 0, user_agent := none, ip := none },
       { timestamp := 9, method := "GET", path := "/", status_code := 200,
         duration := 0, user_agent := none, ip := none },
       { timestamp := 10, method := "GET", path := "/", status_code := 200,
         duration := 0, user_agent := none, ip := none }] := rfl

theorem recentReqs_s_perc : recentReqs s_perc 100 = s_perc.request_metrics := by
  unfold recentReqs
  rw [s_perc_reqs]
  norm_num [List.filter]

theorem sortedDurations_s_perc :
    sortedDurations s_perc 100 = [10, 20, 30, 40, 50] := by
  unfold sortedDurations
  rw [recentReqs_s_perc, s_perc_reqs]
  norm_num [sortAsc, List.insertionSort, List.orderedInsert]

/-! The claims. -/

/-- Claim C1 (code bug): the claim states that every bounded series,
including every named system time series such as
`http_request_duration_seconds`, holds at most its configured capacity
with FIFO eviction. The deque-backed collections do behave that way
(shown here for the trace log with capacity 2: after three inserts only
the newest two remain), but `_initialize_metrics` creates the system
series' `'values'` as plain lists, so `_add_time_series`'s bounded-deque
branch never runs and those series grow without bound: with
`max_metric_points = 2`, three `record_request` calls leave three points
in `http_request_duration_seconds`. -/
theorem C1_system_series_unbounded :
    s_capacity.maxMetricPoints = 2
    ∧ (seriesPointsM s_capacity.metrics
        "http_request_duration_seconds").length = 3
    ∧ s_traceCap.maxTraces = 2
    ∧ s_traceCap.traces = [⟨[], 2⟩, ⟨[], 3⟩] := by
  refine ⟨rfl, ?_, rfl, ?_⟩ <;> decide

/-- Claim C2 (corrected): at query time, `summary.requests.per_minute`
is the length of `recent_requests`, the trailing **300-second** window —
not the 60-second window the claim states. The second half of the claim
is right: `record_request` recomputes the `http_requests_per_minute`
series point as the number of records of the post-append request log
within the strict trailing 60-second window. -/
theorem C2_per_minute_windows (s : DataStore) (tq : ℚ) (p : RequestPayload)
    (t : ℚ) (hr : Reachable s) :
    (getMetricsSummary s tq).requests.per_minute
      = (s.request_metrics.filter
          (fun r => decide (r.timestamp > tq - 300))).length
    ∧ (seriesPointsM (recordRequest s p t).metrics
        "http_requests_per_minute").getLast?
      = some ⟨(((recordRequest s p t).request_metrics.filter
          (fun r => decide (r.timestamp > t - 60))).length : ℚ), t⟩ := by
  constructor
  · rfl
  · obtain ⟨sh, hsh⟩ := (reachable_inv hr).shaped
    rw [recordRequest_eq s p t sh hsh]
    simp only [seriesPointsM_rpm_shape]
    rw [List.getLast?_concat]
    rfl

theorem C2_witness :
    (seriesPointsM (recordRequest emptyStore5 {} 7).metrics
        "http_requests_per_minute").getLast?
      = some ⟨(((recordRequest emptyStore5 {} 7).request_metrics.filter
          (fun r => decide (r.timestamp > (7 : ℚ) - 60))).length : ℚ), 7⟩ :=
  (C2_per_minute_windows emptyStore5 3 {} 7 (Reachable.init cfg5 0)).2

/-- Claim C2's counterexample: one request recorded at instant 0; at
query instant 100 the summary reports `per_minute = 1` (the request is
inside the 300-second window) although no record has a timestamp greater
than `100 - 60`. -/
theorem C2_counterexample :
    (getMetricsSummary s_oneReq 100).requests.per_minute = 1
    ∧ (s_oneReq.request_metrics.filter
        (fun r => decide (r.timestamp > (100 : ℚ) - 60))).length = 0
    ∧ (getMetricsSummary s_oneReq 100).requests.per_minute
        ≠ (s_oneReq.request_metrics.filter
            (fun r => decide (r.timestamp > (100 : ℚ) - 60))).length := by
  have h1 : (getMetricsSummary s_oneReq 100).requests.per_minute = 1 := by
    show (s_oneReq.request_metrics.filter
      (fun r => decide (r.timestamp > (100 : ℚ) - 300))).length = 1
    rw [s_oneReq_reqs]
    norm_num [List.filter]
  have h2 : (s_oneReq.request_metrics.filter
      (fun r => decide (r.timestamp > (100 : ℚ) - 60))).length = 0 := by
    rw [s_oneReq_reqs]
    norm_num [List.filter]
  exact ⟨h1, h2, by rw [h1, h2]; exact one_ne_zero⟩

/-- Claim C3 (confirmed): for a non-empty trailing window, each reported
percentile is the element of the ascending-sorted duration sample at
index `floor(n * p)` clamped to `n - 1`, with no interpolation: the
sample is sorted and a permutation of the window's durations, and
p50/p95/p99 are floor-index selections from it. -/
theorem C3_percentile_selection (s : DataStore) (tq : ℚ)
    (hne : recentReqs s tq ≠ []) :
    List.Sorted (· ≤ ·) (sortedDurations s tq)
    ∧ List.Perm (sortedDurations s tq)
        ((recentReqs s tq).map (fun r => r.duration))
    ∧ (getMetricsSummary s tq).requests.latency.p50
        = (sortedDurations s tq).getD
            (min ((Int.floor (((sortedDurations s tq).length : ℚ) * 0.5)).toNat)
              ((sortedDurations s tq).length - 1)) 0
    ∧ (getMetricsSummary s tq).requests.latency.p95
        = (sortedDurations s tq).getD
            (min ((Int.floor (((sortedDurations s tq).length : ℚ) * 0.95)).toNat)
              ((sortedDurations s tq).length - 1)) 0
    ∧ (getMetricsSummary s tq).requests.latency.p99
        = (sortedDurations s tq).getD
            (min ((Int.floor (((sortedDurations s tq).length : ℚ) * 0.99)).toNat)
              ((sortedDurations s tq).length - 1)) 0 := by
  have hlen : sortedDurations s tq ≠ [] := by
    unfold sortedDurations sortAsc
    intro h
    apply hne
    have hp := List.perm_insertionSort (· ≤ ·)
      ((recentReqs s tq).map (fun r => r.duration))
    rw [h] at hp
    have hmap := hp.symm.eq_nil
    exact List.map_eq_nil_iff.mp hmap
  refine ⟨List.sorted_insertionSort _ _, List.perm_insertionSort _ _,
    ?_, ?_, ?_⟩
  · show (percentile (sortedDurations s tq) 0.5).getD 0 = _
    rw [percentile_eq _ _ hlen]
    rfl
  · show (percentile (sortedDurations s tq) 0.95).getD 0 = _
    rw [percentile_eq _ _ hlen]
    rfl
  · show (percentile (sortedDurations s tq) 0.99).getD 0 = _
    rw [percentile_eq _ _ hlen]
    rfl

theorem C3_witness :
    (getMetricsSummary s_perc 100).requests.latency.p50 = 30
    ∧ (getMetricsSummary s_perc 100).requests.latency.p99 = 50 :=
  ⟨((C3_percentile_selection s_perc 100
      (by rw [recentReqs_s_perc, s_perc_reqs]; simp)).2.2.1).trans
      (by rw [sortedDurations_s_perc]; norm_num [List.getD]; decide),
   ((C3_percentile_selection s_perc 100
      (by rw [recentReqs_s_perc, s_perc_reqs]; simp)).2.2.2.2).trans
      (by rw [sortedDurations_s_perc]; norm_num [List.getD]; decide)⟩

/-- Claim C4 (corrected): no `record_*` operation raises on missing
optional fields (each is a total function of the payload in this model,
mirroring `dict.get` defaults) — but missing numeric fields are
zero-filled, not skipped: a request payload without `'duration'` gets
`duration = 0`, contributing a 0 point to the duration series and a 0
duration to the percentile inputs, and a resource payload whose
`system.memory` lacks `'percent'` contributes a 0 point to
`system_memory_usage`. -/
theorem C4_missing_fields_zero_filled (s : DataStore) (p : RequestPayload)
    (t : ℚ) (hr : Reachable s) (hd : p.duration = none) :
    seriesPointsM (recordRequest s p t).metrics
        "http_request_duration_seconds"
      = seriesPointsM s.metrics "http_request_duration_seconds" ++ [⟨0, t⟩]
    ∧ (mkRequestRecord p t).duration = 0
    ∧ seriesPointsM (recordResourceMetrics s
        { cpu := none, memory := none,
          system := some { load_average := none,
                           memory := some { percent := none } } } t).metrics
        "system_memory_usage"
      = seriesPointsM s.metrics "system_memory_usage" ++ [⟨0, t⟩] := by
  obtain ⟨sh, hsh⟩ := (reachable_inv hr).shaped
  refine ⟨?_, ?_, ?_⟩
  · rw [recordRequest_eq s p t sh hsh, hsh]
    simp only [seriesPointsM_dur_shape, hd, Option.getD_none, zero_div]
  · simp [mkRequestRecord, hd]
  · rw [recordResourceMetrics_metrics, hsh, resourceSeriesUpdate_shape]
    simp only [seriesPointsM_sysMem_shape]
    rfl

theorem C4_witness :
    seriesPointsM (recordRequest emptyStore5 {} 1).metrics
        "http_request_duration_seconds"
      = seriesPointsM emptyStore5.metrics "http_request_duration_seconds"
          ++ [⟨0, 1⟩] :=
  (C4_missing_fields_zero_filled emptyStore5 {} 1
    (Reachable.init cfg5 0) rfl).1

/-- Claim C4's counterexample: a request payload without `'duration'`
adds the point `(0, 1)` to the duration series (the claim says no point
is added), and a resource payload whose `system.memory` lacks
`'percent'` adds the point `(0, 1)` to `system_memory_usage`. -/
theorem C4_counterexample :
    seriesPointsM emptyStore5.metrics "http_request_duration_seconds" = []
    ∧ seriesPointsM emptyStore5.metrics "system_memory_usage" = []
    ∧ seriesPointsM (recordRequest emptyStore5 {} 1).metrics
        "http_request_duration_seconds" = [⟨0, 1⟩]
    ∧ seriesPointsM (recordResourceMetrics emptyStore5
        { cpu := none, memory := none,
          system := some { load_average := none,
                           memory := some { percent := none } } } 1).metrics
        "system_memory_usage" = [⟨0, 1⟩] := by
  refine ⟨rfl, rfl, ?_, ?_⟩
  · rw [show emptyStore5 = mkStore cfg5 0 from rfl,
      recordRequest_eq (mkStore cfg5 0) {} 1 (initShape 0) rfl]
    simp only [seriesPointsM_dur_shape]
    norm_num [initShape]
  · rw [recordResourceMetrics_metrics,
      show emptyStore5.metrics = shapeMetrics (initShape 0) from rfl,
      resourceSeriesUpdate_shape]
    simp only [seriesPointsM_sysMem_shape]
    norm_num [resourceShapeUpdate, initShape]

/-- Claim C5 (corrected): the stored error rate is recomputed only by
`record_request` calls with `status_code >= 400` (other calls leave it
unchanged), and the recomputation runs **before** the current request is
appended, so it ranges over the previously stored requests within the
strict trailing 300-second window: `100 * errored / total` over that
set, `0` when the set is empty. -/
theorem C5_error_rate_update (s : DataStore) (p : RequestPayload) (t : ℚ)
    (hr : Reachable s) :
    (400 ≤ p.status_code.getD 200 →
       metricValueM (recordRequest s p t).metrics "http_error_rate"
         = some (errorRateCalc s.request_metrics t))
    ∧ (p.status_code.getD 200 < 400 →
       metricValueM (recordRequest s p t).metrics "http_error_rate"
         = metricValueM s.metrics "http_error_rate")
    ∧ errorRateCalc s.request_metrics t
        = (if (recentReqs s t).isEmpty then 0
           else (((recentReqs s t).filter
               (fun r => decide (400 ≤ r.status_code))).length : ℚ)
             / ((recentReqs s t).length : ℚ) * 100) := by
  obtain ⟨sh, hsh⟩ := (reachable_inv hr).shaped
  refine ⟨?_, ?_, rfl⟩
  · intro hsc
    rw [recordRequest_eq s p t sh hsh]
    simp only [metricValueM_err_shape, if_pos hsc]
  · intro hlt
    have hsc : ¬ 400 ≤ p.status_code.getD 200 := not_le.mpr hlt
    rw [recordRequest_eq s p t sh hsh, hsh]
    simp only [metricValueM_err_shape, if_neg hsc]

theorem C5_witness :
    metricValueM (recordRequest s_tenReqs { status_code := some 404 }
        11).metrics "http_error_rate" = some 30 :=
  ((C5_error_rate_update s_tenReqs { status_code := some 404 } 11
      (Reachable.req _ _ _ (Reachable.req _ _ _ (Reachable.req _ _ _
        (Reachable.req _ _ _ (Reachable.req _ _ _ (Reachable.req _ _ _
          (Reachable.req _ _ _ (Reachable.req _ _ _ (Reachable.req _ _ _
            (Reachable.req _ _ _ (Reachable.init ⟨20, 20, 20⟩ 0)))))))))))).1
    (by decide)).trans
    (by rw [s_tenReqs_reqs]; norm_num [errorRateCalc, List.filter])

/-- Claim C5's counterexample: the first request ever recorded has
status 500; the claim demands an error rate of `100 * 1/1 = 100` after
the call (the one request in the window is errored), but the code
computes the rate before appending the request and stores `0`. -/
theorem C5_counterexample :
    metricValueM s_oneError.metrics "http_error_rate" = some 0
    ∧ (s_oneError.request_metrics.filter
        (fun r => decide (r.timestamp > (10 : ℚ) - 300))).length = 1
    ∧ ((s_oneError.request_metrics.filter
        (fun r => decide (r.timestamp > (10 : ℚ) - 300))).filter
        (fun r => decide (400 ≤ r.status_code))).length = 1
    ∧ metricValueM s_oneError.metrics "http_error_rate"
        ≠ some (100 * (1 : ℚ) / 1) := by
  refine ⟨?_, ?_, ?_, ?_⟩
  · rw [show s_oneError = recordRequest emptyStore5
        { status_code := some 500 } 10 from rfl,
      recordRequest_eq emptyStore5 { status_code := some 500 } 10
        (initShape 0) rfl]
    simp only [metricValueM_err_shape]
    norm_num [errorRateCalc, List.filter, emptyStore5, mkStore, cfg5]
  · rw [s_oneError_reqs]
    norm_num [List.filter]
  · rw [s_oneError_reqs]
    norm_num [List.filter]
  · rw [show s_oneError = recordRequest emptyStore5
        { status_code := some 500 } 10 from rfl,
      recordRequest_eq emptyStore5 { status_code := some 500 } 10
        (initShape 0) rfl]
    simp only [metricValueM_err_shape]
    norm_num [errorRateCalc, List.filter, emptyStore5, mkStore, cfg5]

/-- Claim C6 (corrected): for every **positive** limit, `get_traces`,
`get_errors` and `get_requests` return exactly the newest
`min(limit, count)` entries, newest first (the reversed list truncated
to `limit`), so the result never exceeds `limit` entries. The claim as
stated over every limit value fails at `limit = 0`: Python's
`l[-0:]` slice is the whole list. -/
theorem C6_get_newest_first (s : DataStore) (limit : ℤ) (h : 1 ≤ limit) :
    getTraces s limit = s.traces.reverse.take limit.toNat
    ∧ (getTraces s limit).length ≤ limit.toNat
    ∧ getErrors s limit = s.errors.reverse.take limit.toNat
    ∧ (getErrors s limit).length ≤ limit.toNat
    ∧ getRequests s limit = s.request_metrics.reverse.take limit.toNat
    ∧ (getRequests s limit).length ≤ limit.toNat := by
  have key : ∀ {α : Type} (l : List α),
      (pyTail l limit).reverse = l.reverse.take limit.toNat := by
    intro α l
    rw [pyTail_pos _ _ (by omega), reverse_takeLast]
  refine ⟨key _, ?_, key _, ?_, key _, ?_⟩
  · rw [show getTraces s limit = s.traces.reverse.take limit.toNat from key _]
    exact List.length_take_le _ _
  · rw [show getErrors s limit = s.errors.reverse.take limit.toNat from key _]
    exact List.length_take_le _ _
  · rw [show getRequests s limit
        = s.request_metrics.reverse.take limit.toNat from key _]
    exact List.length_take_le _ _

theorem C6_witness :
    getTraces s_oneTrace 1 = s_oneTrace.traces.reverse.take (1 : ℤ).toNat :=
  (C6_get_newest_first s_oneTrace 1 (by decide)).1

/-- Claim C6's counterexample: with one stored trace, `get_traces(0)`
returns one entry although the claim demands `min(0, 1) = 0` entries
and a length never exceeding the limit. -/
theorem C6_counterexample :
    (getTraces s_oneTrace 0).length = 1
    ∧ ¬ (getTraces s_oneTrace 0).length ≤ (0 : ℤ).toNat := by
  refine ⟨?_, ?_⟩ <;> decide

/-- Claim C7 (corrected): persisting a reachable state and loading it
into a freshly constructed store with the same capacities yields the
same `get_metrics` summary at every query instant; loading into a store
with arbitrary (in particular smaller) capacities truncates the
deque-backed collections to the newest entries — the last `cap`
elements of each log, and each custom metric's points cut to the newest
`max_metric_points` — but, contrary to the claim's "each collection",
the named system series are **not** truncated: `_load_persisted_data`
restores `self.metrics` wholesale via `dict.update`, so the loaded
store's metrics equal the saved metrics verbatim, whatever the new
`max_metric_points` (final conjunct). -/
theorem C7_persistence_round_trip (s : DataStore) (t0 tsave tq : ℚ)
    (cfg2 : StoreCfg) (hr : Reachable s) :
    getMetricsSummary (loadPersistedData
        (mkStore ⟨s.maxTraces, s.maxErrors, s.maxMetricPoints⟩ t0)
        (persistData s tsave)) tq
      = getMetricsSummary s tq
    ∧ (loadPersistedData (mkStore cfg2 t0) (persistData s tsave)).traces
        = takeLast cfg2.maxTraces s.traces
    ∧ (loadPersistedData (mkStore cfg2 t0) (persistData s tsave)).errors
        = takeLast cfg2.maxErrors s.errors
    ∧ (loadPersistedData (mkStore cfg2 t0)
        (persistData s tsave)).request_metrics
        = takeLast cfg2.maxMetricPoints s.request_metrics
    ∧ (loadPersistedData (mkStore cfg2 t0)
        (persistData s tsave)).resource_metrics
        = takeLast cfg2.maxMetricPoints s.resource_metrics
    ∧ (∀ name, lookupA (loadPersistedData (mkStore cfg2 t0)
          (persistData s tsave)).custom_metrics name
        = (lookupA s.custom_metrics name).map
            (fun cm => { values := takeLast cfg2.maxMetricPoints cm.values
                         attributes := cm.attributes }))
    ∧ (loadPersistedData (mkStore cfg2 t0) (persistData s tsave)).metrics
        = s.metrics := by
  have inv := reachable_inv hr
  obtain ⟨sh, hsh⟩ := inv.shaped
  refine ⟨?_, ?_, ?_, ?_, ?_, ?_, ?_⟩
  · apply summary_congr
    · show updA (initMetrics t0) s.metrics = s.metrics
      rw [hsh, initMetrics_eq_shape, updA_shape]
    · show takeLast s.maxMetricPoints ([] ++ s.request_metrics)
        = s.request_metrics
      rw [List.nil_append]
      exact takeLast_eq_of_le inv.reqLen
    · show takeLast s.maxMetricPoints ([] ++ s.resource_metrics)
        = s.resource_metrics
      rw [List.nil_append]
      exact takeLast_eq_of_le inv.resLen
    · show takeLast s.maxErrors ([] ++ s.errors) = s.errors
      rw [List.nil_append]
      exact takeLast_eq_of_le inv.errLen
    · show takeLast s.maxTraces ([] ++ s.traces) = s.traces
      rw [List.nil_append]
      exact takeLast_eq_of_le inv.trLen
  · show takeLast cfg2.maxTraces ([] ++ s.traces) = _
    rw [List.nil_append]
  · show takeLast cfg2.maxErrors ([] ++ s.errors) = _
    rw [List.nil_append]
  · show takeLast cfg2.maxMetricPoints ([] ++ s.request_metrics) = _
    rw [List.nil_append]
  · show takeLast cfg2.maxMetricPoints ([] ++ s.resource_metrics) = _
    rw [List.nil_append]
  · intro name
    have hrw : (loadPersistedData (mkStore cfg2 t0)
          (persistData s tsave)).custom_metrics
        = foldSet (fun _ cm =>
            { values := takeLast cfg2.maxMetricPoints cm.values
              attributes := cm.attributes : CustomMetric })
            [] s.custom_metrics := rfl
    rw [hrw]
    cases hn : lookupA s.custom_metrics name with
    | none =>
        rw [lookupA_foldSet_of_notmem _ _ _ _
          ((lookupA_eq_none_iff _ _).mp hn)]
        rfl
    | some cm =>
        rw [lookupA_foldSet_of_mem _ _ _ _ cm inv.customNodup hn]
        rfl
  · show updA (initMetrics t0) s.metrics = s.metrics
    rw [hsh, initMetrics_eq_shape, updA_shape]

/-- Claim C7's counterexample: `s_capacity` holds three points in its
`http_request_duration_seconds` series; persisting it and loading into a
freshly constructed store whose `max_metric_points` is 2 keeps all
three points — the loaded series exceeds the new capacity, so loading
does not retain only the newest entries of that collection. -/
theorem C7_counterexample :
    (mkStore (⟨2, 2, 2⟩ : StoreCfg) 5).maxMetricPoints = 2
    ∧ (seriesPointsM (loadPersistedData (mkStore ⟨2, 2, 2⟩ 5)
        (persistData s_capacity 4)).metrics
        "http_request_duration_seconds").length = 3
    ∧ ¬ (seriesPointsM (loadPersistedData (mkStore ⟨2, 2, 2⟩ 5)
        (persistData s_capacity 4)).metrics
        "http_request_duration_seconds").length
      ≤ (mkStore (⟨2, 2, 2⟩ : StoreCfg) 5).maxMetricPoints := by
  refine ⟨rfl, ?_, ?_⟩ <;> decide

theorem C7_witness :
    getMetricsSummary (loadPersistedData
        (mkStore ⟨s_oneReq.maxTraces, s_oneReq.maxErrors,
          s_oneReq.maxMetricPoints⟩ 2)
        (persistData s_oneReq 1)) 3
      = getMetricsSummary s_oneReq 3 :=
  (C7_persistence_round_trip s_oneReq 2 1 3 ⟨1, 1, 1⟩
    (Reachable.req _ _ _ (Reachable.init cfg5 0))).1

/-- Claim C8 (confirmed): `ConfigManager` construction fails if and only
if the merged configuration violates one of the validated ranges —
either port outside [1, 65535], sample rate outside [0, 1], an interval
below 1000 ms, `max_traces`/`max_errors` below 1, or a CPU threshold
outside [0, 100] — and on success it yields exactly the merged
configuration, in which caller options take precedence over
environment values, which take precedence over the built-in defaults. -/
theorem C8_config_validation (env : EnvValues) (opts : ConfigOptions) :
    ((∃ c, buildConfig env opts = Except.ok c)
      ↔ validConfig (mergeConfig env opts))
    ∧ (∀ c, buildConfig env opts = Except.ok c
        → c = mergeConfig env opts) := by
  cases hv : validateConfig (mergeConfig env opts) with
  | ok u =>
      cases u
      constructor
      · constructor
        · intro _
          exact (validateConfig_ok_iff _).mp hv
        · intro _
          exact ⟨mergeConfig env opts, by unfold buildConfig; rw [hv]⟩
      · intro c hc
        unfold buildConfig at hc
        rw [hv] at hc
        exact (Except.ok.injEq _ _).mp hc.symm
  | error e =>
      constructor
      · constructor
        · rintro ⟨c, hc⟩
          unfold buildConfig at hc
          rw [hv] at hc
          exact absurd hc (by simp)
        · intro hval
          rw [(validateConfig_ok_iff _).mpr hval] at hv
          exact absurd hv (by simp)
      · intro c hc
        unfold buildConfig at hc
        rw [hv] at hc
        exact absurd hc (by simp)

theorem C8_witness :
    (∃ c, buildConfig envW optsW = Except.ok c)
    ∧ (buildConfig envW optsW = Except.ok (mergeConfig envW optsW)
        → mergeConfig envW optsW = mergeConfig envW optsW)
    ∧ (mergeConfig envW optsW).dashboard_port = 8080
    ∧ (mergeConfig envW optsW).sample_rate = 0.25 :=
  ⟨(C8_config_validation envW optsW).1.mpr
      (by norm_num [validConfig, mergeConfig, envW, optsW]),
   fun h => (C8_config_validation envW optsW).2 _ h,
   rfl, rfl⟩

/-- Claim C9 (confirmed): after `clear` at instant `t`, `get_metrics`
at any instant gives exactly the result of a freshly constructed store
with the same configuration (all logs and custom metrics empty, the
named system series reinitialized to their zero state), and `clear`
publishes a `clear` event. -/
theorem C9_clear_resets (s : DataStore) (t t2 : ℚ) :
    getMetrics (clearStore s t) t2
      = getMetrics (mkStore ⟨s.maxTraces, s.maxErrors, s.maxMetricPoints⟩ t) t2
    ∧ (clearStore s t).events = s.events ++ ["clear"] :=
  ⟨rfl, rfl⟩

/-- Claim C10 (confirmed): `record_trace` appends exactly one entry,
stamped with the ingestion timestamp, to the trace log (evicting the
oldest beyond capacity, per the bounded-log discipline) and leaves the
system metrics map, the error, request and resource logs and the custom
metrics untouched; `record_error` does the same for the error log. -/
theorem C10_trace_error_frame (s : DataStore) (d e : Obj) (t u : ℚ)
    (h1 : 1 ≤ s.maxTraces) (h2 : 1 ≤ s.maxErrors) :
    ((recordTrace s d t).traces = takeLast s.maxTraces (s.traces ++ [⟨d, t⟩])
     ∧ (recordTrace s d t).traces.getLast? = some ⟨d, t⟩
     ∧ (recordTrace s d t).metrics = s.metrics
     ∧ (recordTrace s d t).errors = s.errors
     ∧ (recordTrace s d t).request_metrics = s.request_metrics
     ∧ (recordTrace s d t).resource_metrics = s.resource_metrics
     ∧ (recordTrace s d t).custom_metrics = s.custom_metrics)
    ∧ ((recordError s e u).errors = takeLast s.maxErrors (s.errors ++ [⟨e, u⟩])
       ∧ (recordError s e u).errors.getLast? = some ⟨e, u⟩
       ∧ (recordError s e u).metrics = s.metrics
       ∧ (recordError s e u).traces = s.traces
       ∧ (recordError s e u).request_metrics = s.request_metrics
       ∧ (recordError s e u).resource_metrics = s.resource_metrics
       ∧ (recordError s e u).custom_metrics = s.custom_metrics) :=
  ⟨⟨rfl, getLast?_takeLast_concat _ h1 _ _, rfl, rfl, rfl, rfl, rfl⟩,
   ⟨rfl, getLast?_takeLast_concat _ h2 _ _, rfl, rfl, rfl, rfl, rfl⟩⟩

theorem C10_witness :
    (recordTrace emptyStore5 [("kind", Val.str "db")] 4).traces.getLast?
      = some ⟨[("kind", Val.str "db")], 4⟩ :=
  (C10_trace_error_frame emptyStore5 [("kind", Val.str "db")] [] 4 0
    (by decide) (by decide)).1.2.1

end LiteObs
